import Mathlib

/-!
Verification development for the AIPoweredBISystem repository's
natural-language-assistant pipeline.  Python source functions are shallowly
embedded as executable Lean definitions (strings as `String`/`List Char`,
Python float as `Rat`, SQLite rows as structures, try/except as `Except` /
explicit fallback branches), and the spec's claims are settled as theorems
about those definitions.
-/

/-! ## Python string primitives -/

/-- The whitespace characters stripped by Python `str.strip()` (ASCII range). -/
def pyWhitespace : List Char := [' ', '\t', '\n', '\x0d', '\x0b', '\x0c']

def isPyWS (c : Char) : Bool := decide (c ∈ pyWhitespace)

/-- `str.strip()` on a character list: drop whitespace from both ends. -/
def pyStripL (l : List Char) : List Char :=
  ((l.dropWhile isPyWS).reverse.dropWhile isPyWS).reverse

/-- `str.lstrip(chars)`: drop leading characters that belong to `set`. -/
def pyLstripSet (set : List Char) (l : List Char) : List Char :=
  l.dropWhile (fun c => decide (c ∈ set))

/-- `str.lower()` (ASCII case folding, which is all the keyword lists use). -/
def py_lower (s : String) : String := String.mk (s.toList.map Char.toLower)

/-- Substring containment, the semantics of Python's `pat in hay`. -/
def containsSub (pat : List Char) : List Char → Bool
  | [] => pat.isEmpty
  | c :: t => pat.isPrefixOf (c :: t) || containsSub pat t

/-- Python `str.split('\n')`: split a character list at newline characters. -/
def splitLines : List Char → List (List Char)
  | [] => [[]]
  | c :: r =>
    if c = '\n' then [] :: splitLines r
    else
      match splitLines r with
      | [] => [[c]]
      | h :: t => (c :: h) :: t

/-! ## Query Classifier (`EnhancedAIAgent.analyze_query_type`,
`src/enhanced_agent.py`) -/

def plannerWords : List String :=
  ["plan", "strategy", "roadmap", "timeline", "schedule", "develop"]

def analyticsWords : List String :=
  ["analyze", "analysis", "trend", "pattern", "insight", "metric", "statistic"]

def ragWords : List String :=
  ["show", "list", "get", "find", "retrieve", "display", "what"]

def supervisorWords : List String :=
  ["comprehensive", "complete", "overview", "assessment", "report", "review"]

def reactWords : List String :=
  ["why", "how", "solve", "fix", "improve", "problem", "issue", "trouble"]

def cragWords : List String :=
  ["validate", "verify", "check", "review", "assess", "correct", "validate"]

/-- `any(word in query_lower for word in ws)`. -/
def kwHit (query_lower : String) (ws : List String) : Bool :=
  ws.any (fun w => containsSub w.toList query_lower.toList)

/-- `EnhancedAIAgent.analyze_query_type`: first matching keyword set wins,
default `"supervisor"`. -/
def analyze_query_type (query : String) : String :=
  let query_lower := py_lower query
  if kwHit query_lower plannerWords then "planner"
  else if kwHit query_lower analyticsWords then "analytics"
  else if kwHit query_lower ragWords then "rag"
  else if kwHit query_lower supervisorWords then "supervisor"
  else if kwHit query_lower reactWords then "react"
  else if kwHit query_lower cragWords then "crag"
  else "supervisor"

/-! ## Response Post-processor (`extract_actions_from_response`),
two near-duplicate variants: `src/main.py` and `src/enhanced_streamlit.py`. -/

/-- The character set of `line.lstrip('-•12345. ')`. -/
def stripSet : List Char := ['-', '•', '1', '2', '3', '4', '5', '.', ' ']

/-- The bullet/number markers tested by `line.startswith(...)` in `main.py`. -/
def markersMain : List (List Char) :=
  [['-'], ['•'], ['1', '.'], ['2', '.'], ['3', '.'], ['4', '.'], ['5', '.']]

/-- The marker list of the `enhanced_streamlit.py` variant, which adds the
literal words "Recommend", "Action", "Step". -/
def markersES : List (List Char) :=
  markersMain ++ ["Recommend".toList, "Action".toList, "Step".toList]

/-- One loop iteration of `extract_actions_from_response` in `main.py`:
strip the line, test the markers, strip the marker characters, keep the
action when it is nonempty and longer than 10 characters. -/
def processLineMain (l : List Char) : Option (List Char) :=
  let line := pyStripL l
  if markersMain.any (fun m => m.isPrefixOf line) then
    let action := pyStripL (pyLstripSet stripSet line)
    if !action.isEmpty && decide (action.length > 10) then some action else none
  else none

/-- One loop iteration of the `enhanced_streamlit.py` variant: marker test
and a 15-character minimum on the whole stripped line, then drop actions
that still start with the bold marker `**`. -/
def processLineES (l : List Char) : Option (List Char) :=
  let line := pyStripL l
  if markersES.any (fun m => m.isPrefixOf line) && decide (line.length > 15) then
    let action := pyStripL (pyLstripSet stripSet line)
    if !action.isEmpty && !(['*', '*'].isPrefixOf action) then some action else none
  else none

/-- `extract_actions_from_response` of `src/main.py`. -/
def extract_actions_from_response (response : String) : List String :=
  (((splitLines response.toList).filterMap processLineMain).map
    (fun l => String.mk l)).take 5

/-- `extract_actions_from_response` of `src/enhanced_streamlit.py`. -/
def extract_actions_from_response_es (response : String) : List String :=
  (((splitLines response.toList).filterMap processLineES).map
    (fun l => String.mk l)).take 5

/-! ## Python dynamic values and the safe numeric coercion helpers
(`AICRUDTools.safe_float` / `AICRUDTools.safe_int`, `src/agent_tools.py`) -/

/-- A Python value as seen by the coercion helpers: `None`, an int, a float
(modelled exactly as a rational), or a string. -/
inductive PyValue where
  | pynone
  | pyint (n : Int)
  | pyfloat (q : Rat)
  | pystr (s : String)
deriving DecidableEq

/-- Numeric value of a digit string (most significant first). -/
def digitsVal (l : List Char) : Nat :=
  l.foldl (fun a c => a * 10 + (c.toNat - 48)) 0

/-- Python `float(s)` on a string: optional sign, decimal digits with an
optional fractional part; anything else raises `ValueError` (`none`).
The parsed value sign*(ip + frac/10^len) is built with `mkRat`. -/
def pyParseFloat (s : String) : Option Rat :=
  let l := pyStripL s.toList
  let body := if l.head? = some '-' ∨ l.head? = some '+' then l.tail else l
  let sign : Int := if l.head? = some '-' then -1 else 1
  let ip := body.takeWhile Char.isDigit
  let rest := body.dropWhile Char.isDigit
  if rest.isEmpty then
    if ip.isEmpty then none else some (mkRat (sign * digitsVal ip) 1)
  else if rest.head? = some '.' ∧ rest.tail.all Char.isDigit
      ∧ ¬(ip.isEmpty ∧ rest.tail.isEmpty) then
    some (mkRat (sign * (digitsVal ip * 10 ^ rest.tail.length + digitsVal rest.tail))
      (10 ^ rest.tail.length))
  else none

/-- Python `int(s)` on a string: optional sign and decimal digits only
("12.5" raises `ValueError`). -/
def pyParseInt (s : String) : Option Int :=
  let l := pyStripL s.toList
  let signed : Int × List Char :=
    match l with
    | '-' :: t => (-1, t)
    | '+' :: t => (1, t)
    | _ => (1, l)
  if !signed.2.isEmpty && signed.2.all Char.isDigit then
    some (signed.1 * (digitsVal signed.2 : Int))
  else none

/-- Python `int()` on a float truncates toward zero. -/
def pyTruncate (q : Rat) : Int := if 0 ≤ q then ⌊q⌋ else ⌈q⌉

/-- Python `float(value)` as a partial function: `None` raises `TypeError`,
unparsable strings raise `ValueError`. -/
def pyFloat : PyValue → Option Rat
  | .pynone => none
  | .pyint n => some (n : Rat)
  | .pyfloat q => some q
  | .pystr s => pyParseFloat s

/-- Python `int(value)` as a partial function. -/
def pyInt : PyValue → Option Int
  | .pynone => none
  | .pyint n => some n
  | .pyfloat q => some (pyTruncate q)
  | .pystr s => pyParseInt s

/-- `AICRUDTools.safe_float`: the try/except around `float(value)` becomes a
match, with `0.0` on any failure. -/
def safe_float (v : PyValue) : Rat :=
  match pyFloat v with
  | some q => q
  | none => 0

/-- `AICRUDTools.safe_int`: the try/except around `int(value)` becomes a
match, with `0` on any failure. -/
def safe_int (v : PyValue) : Int :=
  match pyInt v with
  | some n => n
  | none => 0

/-- The defaulted dictionary lookup used at the call sites,
`d.get(key, 0)`. -/
def pyDictGetInt (d : List (String × PyValue)) (k : String) : PyValue :=
  match d.lookup k with
  | some v => v
  | none => .pyint 0

/-! ## Storage model: the SQLite tables read by the Metrics Aggregator
(`src/agent_tools.py`).  A `Storage` value is either the database state or a
raised storage error, which each aggregator operation catches. -/

structure CategoryRow where
  category_id : Int
  subcategory_id : Int
  category_name : String
deriving DecidableEq

structure ProductRow where
  product_id : Int
  product_name : String
  category_id : Int
  subcategory_id : Int
  price : Rat
  stock_quantity : Int
deriving DecidableEq

structure UserRow where
  id : Int
  username : String
  email : String
  role_id : Int
  is_active : Bool
  created_at : Int
deriving DecidableEq

structure RoleRow where
  role_id : Int
  role_name : String
deriving DecidableEq

structure DBState where
  product_category : List CategoryRow
  product : List ProductRow
  users : List UserRow
  roles : List RoleRow
  integrity_check : String
deriving DecidableEq

abbrev Storage := Except String DBState

/-- A row of `product JOIN product_category` on the composite category key,
with `category_name` attached (numeric fields already carried as concrete
numbers, which is what `safe_float`/`safe_int` leave unchanged on them). -/
structure JoinedProduct where
  product_id : Int
  product_name : String
  category_id : Int
  subcategory_id : Int
  price : Rat
  stock_quantity : Int
  category_name : String
deriving DecidableEq

def joinProducts (d : DBState) : List JoinedProduct :=
  d.product.flatMap (fun p =>
    (d.product_category.filter (fun c =>
        c.category_id == p.category_id && c.subcategory_id == p.subcategory_id)).map
      (fun c =>
        { product_id := p.product_id
          product_name := p.product_name
          category_id := p.category_id
          subcategory_id := p.subcategory_id
          price := p.price
          stock_quantity := p.stock_quantity
          category_name := c.category_name }))

/-- Python `str.title()`: capitalize the letter starting each run of
letters, lowercase the rest. -/
def pyTitleAux : Bool → List Char → List Char
  | _, [] => []
  | prevAlpha, c :: t =>
    if c.isAlpha then
      (if prevAlpha then c.toLower else c.toUpper) :: pyTitleAux true t
    else c :: pyTitleAux false t

def py_title (s : String) : String := String.mk (pyTitleAux false s.toList)

/-- SQLite `field LIKE '%pat%'` with the default ASCII-case-insensitive
collation. -/
def sqlLike (field pat : String) : Bool :=
  containsSub (py_lower pat).toList (py_lower field).toList

/-! Ordering relations used for the SQL `ORDER BY` clauses. -/

def ascBy {α : Type} (f : α → Int) : α → α → Prop := fun a b => f a ≤ f b

def descBy {α : Type} (f : α → Int) : α → α → Prop := fun a b => f b ≤ f a

def ascByStr {α : Type} (f : α → String) : α → α → Prop := fun a b => f a ≤ f b

instance {α : Type} (f : α → Int) : DecidableRel (ascBy f) :=
  fun a b => Int.decLe _ _

instance {α : Type} (f : α → Int) : DecidableRel (descBy f) :=
  fun a b => Int.decLe _ _

instance {α : Type} (f : α → Int) : IsTotal α (ascBy f) :=
  ⟨fun _ _ => Int.le_total _ _⟩

instance {α : Type} (f : α → Int) : IsTrans α (ascBy f) :=
  ⟨fun _ _ _ => Int.le_trans⟩

instance {α : Type} (f : α → Int) : IsTotal α (descBy f) :=
  ⟨fun _ _ => Int.le_total _ _⟩

instance {α : Type} (f : α → Int) : IsTrans α (descBy f) :=
  ⟨fun _ _ _ hab hbc => Int.le_trans hbc hab⟩

instance {α : Type} (f : α → String) : DecidableRel (ascByStr f) :=
  fun a b => inferInstanceAs (Decidable (f a ≤ f b))

/-! Aggregates with SQL NULL semantics: on an empty set, `AVG`/`MIN`/`MAX`
return NULL, which the call sites push through `safe_float`/`safe_int`,
yielding 0. -/

def sumInt (l : List Int) : Int := l.foldl (· + ·) 0

def sumRat (l : List Rat) : Rat := l.foldl (· + ·) 0

def avgRat (l : List Rat) : Rat := sumRat l / (l.length : Rat)

def minIntD : List Int → Int
  | [] => 0
  | h :: t => t.foldl min h

def maxIntD : List Int → Int
  | [] => 0
  | h :: t => t.foldl max h

def minRatD : List Rat → Rat
  | [] => 0
  | h :: t => t.foldl min h

def maxRatD : List Rat → Rat
  | [] => 0
  | h :: t => t.foldl max h

/-- Distinct values in first-occurrence order (SQL `GROUP BY` keys). -/
def dedupStr (l : List String) : List String :=
  l.foldl (fun acc s => if acc.contains s then acc else acc ++ [s]) []

/-! ## Metrics Aggregator operations (`AICRUDTools`, `src/agent_tools.py`) -/

/-- `AICRUDTools.search_products`: substring match on product name (plain
and title-cased) or category name, optional category filter, ordered by
product name; a storage error is caught and yields `[]`. -/
def search_products (db : Storage) (query : String)
    (category_filter : Option String) : List JoinedProduct :=
  match db with
  | .error _ => []
  | .ok d =>
    let joined := joinProducts d
    let f1 :=
      if query = "" then joined
      else joined.filter (fun j =>
        sqlLike j.product_name query || sqlLike j.product_name (py_title query)
          || sqlLike j.category_name query)
    let f2 :=
      match category_filter with
      | some cf => f1.filter (fun j => sqlLike j.category_name cf)
      | none => f1
    List.insertionSort (ascByStr (fun j : JoinedProduct => j.product_name)) f2

/-- `AICRUDTools.get_low_stock_products`: stock strictly below the
threshold, ordered ascending by stock; a storage error is caught and
yields `[]`. -/
def get_low_stock_products (db : Storage) (threshold : Int) : List JoinedProduct :=
  match db with
  | .error _ => []
  | .ok d =>
    List.insertionSort (ascBy (fun j : JoinedProduct => j.stock_quantity))
      ((joinProducts d).filter (fun j => decide (j.stock_quantity < threshold)))

structure CategoryStat where
  category_name : String
  product_count : Int
  avg_price : Rat
  total_stock : Int
  min_stock : Int
  max_stock : Int
deriving DecidableEq

structure TotalStats where
  total_products : Int
  overall_avg_price : Rat
  total_inventory : Int
  low_stock_count : Int
deriving DecidableEq

structure PriceStats where
  min_price : Rat
  max_price : Rat
deriving DecidableEq

structure SalesTrends where
  category_statistics : List CategoryStat
  total_statistics : Option TotalStats
  price_statistics : Option PriceStats
  total_products : Int
  low_stock_alerts : Int
  total_inventory_value : Option String
  health_score : String
  error : Option String
deriving DecidableEq

/-- The per-category stats of `get_sales_trends` (inner join, grouped by
category name, ordered by product count descending). -/
def sales_category_stats (d : DBState) : List CategoryStat :=
  let joined := joinProducts d
  let names := dedupStr (joined.map (fun j => j.category_name))
  List.insertionSort (descBy (fun cs : CategoryStat => cs.product_count))
    (names.map (fun n =>
      let rows := joined.filter (fun j => j.category_name == n)
      { category_name := n
        product_count := (rows.length : Int)
        avg_price := avgRat (rows.map (fun j => j.price))
        total_stock := sumInt (rows.map (fun j => j.stock_quantity))
        min_stock := minIntD (rows.map (fun j => j.stock_quantity))
        max_stock := maxIntD (rows.map (fun j => j.stock_quantity)) }))

/-- `AICRUDTools.get_sales_trends`; a storage error is caught and converted
into the explicit default dictionary carrying the error string. -/
def get_sales_trends (db : Storage) : SalesTrends :=
  match db with
  | .error e =>
    { category_statistics := []
      total_statistics := none
      price_statistics := none
      total_products := 0
      low_stock_alerts := 0
      total_inventory_value := none
      health_score := "error"
      error := some e }
  | .ok d =>
    let total_stats : TotalStats :=
      { total_products := (d.product.length : Int)
        overall_avg_price :=
          if d.product.isEmpty then 0 else avgRat (d.product.map (fun p => p.price))
        total_inventory := sumInt (d.product.map (fun p => p.stock_quantity))
        low_stock_count :=
          ((d.product.filter (fun p => decide (p.stock_quantity < 10))).length : Int) }
    let price_stats : PriceStats :=
      { min_price :=
          if d.product.isEmpty then 0 else minRatD (d.product.map (fun p => p.price))
        max_price :=
          if d.product.isEmpty then 0 else maxRatD (d.product.map (fun p => p.price)) }
    { category_statistics := sales_category_stats d
      total_statistics := some total_stats
      price_statistics := some price_stats
      total_products := total_stats.total_products
      low_stock_alerts := total_stats.low_stock_count
      total_inventory_value := some "N/A"
      health_score :=
        if total_stats.low_stock_count < 5 then "healthy" else "needs_attention"
      error := none }

structure RoleDist where
  role_name : String
  user_count : Int
  active_users : Int
deriving DecidableEq

structure ActivitySummary where
  total_users : Int
  active_users_count : Int
  inactive_users_count : Int
  first_user_date : Option Int
  latest_user_date : Option Int
deriving DecidableEq

structure RecentUser where
  username : String
  email : String
  role_id : Int
  created_at : Int
deriving DecidableEq

structure UserAnalytics where
  role_distribution : List RoleDist
  activity_summary : Option ActivitySummary
  recent_registrations : List RecentUser
  total_active_users : Int
  total_inactive_users : Int
  admin_count : Int
  manager_count : Int
  user_count : Int
  error : Option String
deriving DecidableEq

structure UserBehaviorResult where
  user_analytics : UserAnalytics
deriving DecidableEq

/-- `AICRUDTools.analyze_user_behavior`; a storage error is caught and
converted into the explicit default carrying the error string. -/
def analyze_user_behavior (db : Storage) : UserBehaviorResult :=
  match db with
  | .error e =>
    ⟨{ role_distribution := []
       activity_summary := none
       recent_registrations := []
       total_active_users := 0
       total_inactive_users := 0
       admin_count := 0
       manager_count := 0
       user_count := 0
       error := some e }⟩
  | .ok d =>
    let joined := d.users.flatMap (fun u =>
      (d.roles.filter (fun r => r.role_id == u.role_id)).map
        (fun r => (u, r.role_name)))
    let names := dedupStr (joined.map (fun ur => ur.2))
    let role_distribution :=
      List.insertionSort (descBy (fun rd : RoleDist => rd.user_count))
        (names.map (fun n =>
          let rows := joined.filter (fun ur => ur.2 == n)
          { role_name := n
            user_count := (rows.length : Int)
            active_users := ((rows.filter (fun ur => ur.1.is_active)).length : Int) }))
    let activity : ActivitySummary :=
      { total_users := (d.users.length : Int)
        active_users_count := ((d.users.filter (fun u => u.is_active)).length : Int)
        inactive_users_count := ((d.users.filter (fun u => !u.is_active)).length : Int)
        first_user_date :=
          if d.users.isEmpty then none
          else some (minIntD (d.users.map (fun u => u.created_at)))
        latest_user_date :=
          if d.users.isEmpty then none
          else some (maxIntD (d.users.map (fun u => u.created_at))) }
    let recent :=
      (List.insertionSort (descBy (fun u : UserRow => u.created_at)) d.users).take 5
    let findCount (n : String) : Int :=
      match role_distribution.find? (fun rd => rd.role_name == n) with
      | some rd => rd.user_count
      | none => 0
    ⟨{ role_distribution := role_distribution
       activity_summary := some activity
       recent_registrations :=
         recent.map (fun u =>
           { username := u.username
             email := u.email
             role_id := u.role_id
             created_at := u.created_at })
       total_active_users := activity.active_users_count
       total_inactive_users := activity.inactive_users_count
       admin_count := findCount "admin"
       manager_count := findCount "manager"
       user_count := findCount "user"
       error := none }⟩

structure CategoryInsight where
  category_id : Int
  subcategory_id : Int
  category_name : String
  product_count : Int
  avg_price : Rat
  total_stock : Int
deriving DecidableEq

structure LowStockCategory where
  category_name : String
  low_stock_count : Int
deriving DecidableEq

structure CategoryInsights where
  category_insights : List CategoryInsight
  low_stock_categories : List LowStockCategory
  total_categories : Int
  categories_with_products : Int
  empty_categories : Int
  error : Option String
deriving DecidableEq

/-- `AICRUDTools.get_category_insights`: left join (zero-product categories
included), low-stock rollup per category; a storage error is caught and
converted into the explicit default carrying the error string. -/
def get_category_insights (db : Storage) : CategoryInsights :=
  match db with
  | .error e =>
    { category_insights := []
      low_stock_categories := []
      total_categories := 0
      categories_with_products := 0
      empty_categories := 0
      error := some e }
  | .ok d =>
    let insights :=
      List.insertionSort (descBy (fun ci : CategoryInsight => ci.product_count))
        (d.product_category.map (fun c =>
          let rows := d.product.filter (fun p =>
            p.category_id == c.category_id && p.subcategory_id == c.subcategory_id)
          { category_id := c.category_id
            subcategory_id := c.subcategory_id
            category_name := c.category_name
            product_count := (rows.length : Int)
            avg_price := if rows.isEmpty then 0 else avgRat (rows.map (fun p => p.price))
            total_stock := sumInt (rows.map (fun p => p.stock_quantity)) }))
    let lowJoined := (joinProducts d).filter (fun j => decide (j.stock_quantity < 10))
    let lownames := dedupStr (lowJoined.map (fun j => j.category_name))
    let lowcats :=
      List.insertionSort (descBy (fun lc : LowStockCategory => lc.low_stock_count))
        (lownames.map (fun n =>
          { category_name := n
            low_stock_count :=
              ((lowJoined.filter (fun j => j.category_name == n)).length : Int) }))
    { category_insights := insights
      low_stock_categories := lowcats
      total_categories := (insights.length : Int)
      categories_with_products :=
        ((insights.filter (fun c => decide (0 < c.product_count))).length : Int)
      empty_categories :=
        ((insights.filter (fun c => c.product_count == 0)).length : Int)
      error := none }

structure HealthIndicators where
  categories : Bool
  products : Bool
  users : Bool
  low_stock : Bool
  database : Bool
deriving DecidableEq

def indicatorsTrueCount (h : HealthIndicators) : Nat :=
  h.categories.toNat + h.products.toNat + h.users.toNat
    + h.low_stock.toNat + h.database.toNat

/-- `sum(health_indicators.values()) / len(health_indicators) * 100`. -/
def healthScoreRaw (h : HealthIndicators) : Rat :=
  (indicatorsTrueCount h : Rat) / 5 * 100

/-- The chained conditional assigning `health_status` from the (unrounded)
score. -/
def healthStatusOf (score : Rat) : String :=
  if 80 ≤ score then "excellent" else if 60 ≤ score then "good" else "needs_attention"

/-- Python `round(x, 1)`.  For the scores that occur (integer multiples of
20) no half-way tie can arise, so round-half-up agrees with Python's
banker's rounding on every reachable input. -/
def pyRound1 (q : Rat) : Rat := ((round (q * 10) : Int) : Rat) / 10

/-- The five boolean health indicators of `get_system_health`. -/
def systemIndicators (d : DBState) : HealthIndicators :=
  { categories := decide (0 < (d.product_category.length : Int))
    products := decide (0 < (d.product.length : Int))
    users := decide (0 < ((d.users.filter (fun u => u.is_active)).length : Int))
    low_stock := decide (((get_low_stock_products (Except.ok d) 10).length : Int) < 10)
    database := d.integrity_check == "ok" }

structure SystemMetrics where
  categories : Int
  products : Int
  active_users : Int
  roles : Int
  low_stock_alerts : Int
  database_health : String
  table_sizes : Option (List (String × Int))
  health_score : Rat
  health_status : String
  error : Option String
deriving DecidableEq

structure SystemHealth where
  system_metrics : SystemMetrics
  health_indicators : Option HealthIndicators
deriving DecidableEq

/-- `AICRUDTools.get_system_health`; a storage error is caught and
converted into the explicit default carrying the error string (which, in
the source, omits the `table_sizes` key and the indicators). -/
def get_system_health (db : Storage) : SystemHealth :=
  match db with
  | .error e =>
    { system_metrics :=
        { categories := 0
          products := 0
          active_users := 0
          roles := 0
          low_stock_alerts := 0
          database_health := "unknown"
          table_sizes := none
          health_score := 0
          health_status := "error"
          error := some e }
      health_indicators := none }
  | .ok d =>
    let hi := systemIndicators d
    { system_metrics :=
        { categories := (d.product_category.length : Int)
          products := (d.product.length : Int)
          active_users := ((d.users.filter (fun u => u.is_active)).length : Int)
          roles := (d.roles.length : Int)
          low_stock_alerts := ((get_low_stock_products (Except.ok d) 10).length : Int)
          database_health := d.integrity_check
          table_sizes := some
            [("product_category", (d.product_category.length : Int)),
             ("product", (d.product.length : Int)),
             ("users", (d.users.length : Int)),
             ("roles", (d.roles.length : Int))]
          health_score := pyRound1 (healthScoreRaw hi)
          health_status := healthStatusOf (healthScoreRaw hi)
          error := none }
      health_indicators := some hi }

/-! ## Completion Client and supervisor (`EnhancedAIAgent`,
`src/enhanced_agent.py`; retrying `AIAgent.safe_generate`,
`src/ai_agent.py`).  A remote `client.generate` call is fallible I/O; its
outcome is an explicit input. -/

/-- Outcome of one `client.generate` call: a raised exception, a response
dict missing the 'response' key, or a response text. -/
inductive GenOutcome where
  | genexc (e : String)
  | genmissing
  | genok (text : String)
deriving DecidableEq

structure AgentState where
  model : String
  available : Bool
  hasClient : Bool
deriving DecidableEq

def enhancedUnavailableMsg : String := "AI service is currently unavailable."

def aiUnavailableMsg : String :=
  "AI service is currently unavailable. Please check if Ollama is running."

def aiRetryFailMsg : String :=
  "I apologize, but I'm having trouble generating a response right now. Please try again later or check the Ollama service."

/-- `EnhancedAIAgent.test_connection`, given the model-name list extracted
from the service's model listing and the outcome of the probe generation:
with no models it returns `False` before any generation attempt; otherwise
the first model is selected and the result is whether the probe produced a
'response' field (an exception is caught and yields `False`). -/
def test_connection (models : List String) (probe : GenOutcome) : Bool :=
  match models with
  | [] => false
  | _ :: _ =>
    match probe with
    | .genok _ => true
    | .genmissing => false
    | .genexc _ => false

/-- `EnhancedAIAgent.__init__`: construct the client (`clientOk` is whether
the constructor succeeded) and let `test_connection` decide availability;
a constructor failure leaves the agent unavailable. -/
def initEnhancedAgent (clientOk : Bool) (models : List String)
    (probe : GenOutcome) : AgentState :=
  if clientOk then
    { model := models.head?.getD "llama3.1:latest"
      available := test_connection models probe
      hasClient := true }
  else
    { model := "llama3.1:latest", available := false, hasClient := false }

/-- `EnhancedAIAgent.safe_generate`, instrumented with the number of
network `generate` calls made: an unavailable agent (or a missing client)
short-circuits to the fixed unavailable message with zero calls. -/
def safe_generate (st : AgentState) (gen : GenOutcome) (_prompt : String) :
    String × Nat :=
  if !st.available || !st.hasClient then (enhancedUnavailableMsg, 0)
  else
    match gen with
    | .genok t => (t, 1)
    | .genmissing => ("No response generated", 1)
    | .genexc e => ("Error generating response: " ++ e, 1)

/-- The retry loop of `AIAgent.safe_generate`: `gen i` is the outcome of
attempt `i`; the pair also counts the network calls made. -/
def aiGenerateLoop (gen : Nat → GenOutcome) (attempt : Nat) :
    Nat → String × Nat
  | 0 => (aiRetryFailMsg, 0)
  | remaining + 1 =>
    match gen attempt with
    | .genok t => (t, 1)
    | _ =>
      let r := aiGenerateLoop gen (attempt + 1) remaining
      (r.1, r.2 + 1)

/-- `AIAgent.safe_generate` (`src/ai_agent.py`), with bounded retries and
linear backoff (the sleeps have no observable effect in this model): an
unavailable agent short-circuits with zero network calls. -/
def ai_safe_generate (st : AgentState) (gen : Nat → GenOutcome)
    (_prompt : String) (max_retries : Nat) : String × Nat :=
  if !st.available || !st.hasClient then (aiUnavailableMsg, 0)
  else aiGenerateLoop gen 0 max_retries

/-- The always-fetched data bundle of
`EnhancedAIAgent.get_comprehensive_business_data` (the six aggregator
results; the derived summary/query-context fields are read by no verified
claim and are not carried in the bundle). -/
structure BusinessData where
  system_health : SystemHealth
  user_analytics : UserBehaviorResult
  sales_trends : SalesTrends
  category_insights : CategoryInsights
  products : List JoinedProduct
  low_stock : List JoinedProduct
deriving DecidableEq

def get_comprehensive_business_data (db : Storage) (_query : String) :
    BusinessData :=
  { system_health := get_system_health db
    user_analytics := analyze_user_behavior db
    sales_trends := get_sales_trends db
    category_insights := get_category_insights db
    products := search_products db "" none
    low_stock := get_low_stock_products db 10 }

/-- `EnhancedAIAgent.create_data_rich_prompt`: assembles the prompt from
the query, role and agent-type template.  The long literal template text
is abbreviated to its distinguishing components; no verified claim depends
on the prompt's wording. -/
def create_data_rich_prompt (query user_role agent_type : String) : String :=
  "AGENT: " ++ agent_type ++ "\nROLE: " ++ user_role ++ "\nQUERY: " ++ query

structure AgentResult where
  response : String
  rtype : String
  data : Option BusinessData
  reasoning : String
  needs_human_review : Bool
deriving DecidableEq

/-- `EnhancedAIAgent.supervisor_agent`, paired with the number of network
calls made.  A Python runtime exception inside the try block (none is ever
raised by the embedded calls themselves) is modelled by the explicit
`assemblyExc` input; the except branch converts it into the error response
with `needs_human_review = True`.  The normal path sets
`needs_human_review = False` verbatim from the source — also when
`safe_generate` returned the unavailable message. -/
def supervisor_agent (st : AgentState) (db : Storage) (gen : GenOutcome)
    (query : String) (user_role : String) (assemblyExc : Option String) :
    AgentResult × Nat :=
  match assemblyExc with
  | some e =>
    ({ response := "Error processing request: " ++ e
       rtype := "error"
       data := none
       reasoning := "Error: " ++ e
       needs_human_review := true }, 0)
  | none =>
    let real_data := get_comprehensive_business_data db query
    let agent_type := analyze_query_type query
    let prompt := create_data_rich_prompt query user_role agent_type
    let gend := safe_generate st gen prompt
    ({ response := gend.1
       rtype := agent_type
       data := some real_data
       reasoning := "Used " ++ agent_type ++ " approach with comprehensive business data"
       needs_human_review := false }, gend.2)

/-! ## Inbound endpoint `enhanced_ai_query` and the response style header
(`src/main.py`) -/

structure HTTPError where
  status_code : Nat
  detail : String
deriving DecidableEq

/-- `str(e)` for a fastapi/starlette `HTTPException`:
`"{status_code}: {detail}"`. -/
def httpExcStr (e : HTTPError) : String :=
  toString e.status_code ++ ": " ++ e.detail

/-- `apply_response_style` of `src/main.py`. -/
def apply_response_style (response style : String) : String :=
  if style = "Formal" then "**Formal Analysis:**\n\n" ++ response
  else if style = "Technical" then "**Technical Assessment:**\n\n" ++ response
  else if style = "Storytelling" then "**Narrative Insights:**\n\n" ++ response
  else response

structure QueryResponse where
  response : String
  agent_type : String
  data : Option BusinessData
  reasoning : String
  actions : List String
  needs_human_review : Bool
deriving DecidableEq

/-- `enhanced_ai_query` of `src/main.py`, paired with the number of
completion-service calls made.  The whole body runs inside a `try:` whose
bare `except Exception` also catches the `HTTPException(400)` raised for a
missing/empty query and re-raises it as a 500 carrying
`"AI processing error: " + str(e)`. -/
def enhanced_ai_query (st : AgentState) (db : Storage) (gen : GenOutcome)
    (query : String) (response_style : String) (role_name : String)
    (assemblyExc : Option String) :
    Except HTTPError QueryResponse × Nat :=
  let inner : Except HTTPError QueryResponse × Nat :=
    if query = "" then (Except.error ⟨400, "Query is required"⟩, 0)
    else
      let res := supervisor_agent st db gen query role_name assemblyExc
      let enhanced := apply_response_style res.1.response response_style
      (Except.ok
        { response := enhanced
          agent_type := res.1.rtype
          data := res.1.data
          reasoning := res.1.reasoning
          actions := extract_actions_from_response enhanced
          needs_human_review := res.1.needs_human_review }, res.2)
  match inner.1 with
  | Except.ok r => (Except.ok r, inner.2)
  | Except.error e =>
    (Except.error ⟨500, "AI processing error: " ++ httpExcStr e⟩, inner.2)

/-! ## END-OF-DEFINITIONS -/

/-! ## Helper lemmas -/

theorem toList_mk (l : List Char) : (String.mk l).toList = l := rfl

theorem dropWhile_head_false {α : Type} {p : α → Bool} :
    ∀ {l : List α} {c : α} {t : List α}, l.dropWhile p = c :: t → p c = false := by
  intro l
  induction l with
  | nil => intro c t h; simp [List.dropWhile] at h
  | cons a l ih =>
    intro c t h
    rw [List.dropWhile_cons] at h
    by_cases hpa : p a = true
    · simp [hpa] at h; exact ih h
    · simp [hpa] at h
      obtain ⟨h1, _⟩ := h
      subst h1
      simpa using hpa

theorem dropWhile_mem {α : Type} {p : α → Bool} {l : List α} {c : α}
    (h : c ∈ l.dropWhile p) : c ∈ l :=
  (List.dropWhile_sublist (p := p) (l := l)).subset h

theorem dropWhile_append {α : Type} (p : α → Bool) :
    ∀ l : List α, ∃ s : List α, s ++ l.dropWhile p = l := by
  intro l
  induction l with
  | nil => exact ⟨[], rfl⟩
  | cons a l ih =>
    rw [List.dropWhile_cons]
    by_cases hpa : p a = true
    · obtain ⟨s, hs⟩ := ih
      exact ⟨a :: s, by simp [hpa, hs]⟩
    · exact ⟨[], by simp [hpa]⟩

theorem rdrop_head {l : List Char} {c : Char} {t : List Char}
    (hl : l = c :: t) (hne : (l.reverse.dropWhile isPyWS).reverse ≠ []) :
    ∃ t2, (l.reverse.dropWhile isPyWS).reverse = c :: t2 := by
  obtain ⟨s, hs⟩ := dropWhile_append isPyWS l.reverse
  have hrev : (l.reverse.dropWhile isPyWS).reverse ++ s.reverse = l := by
    have := congrArg List.reverse hs
    simpa using this
  cases hdr : (l.reverse.dropWhile isPyWS).reverse with
  | nil => exact absurd hdr hne
  | cons c2 t2 =>
    rw [hdr, hl] at hrev
    have h1 : c2 = c := by
      have := congrArg List.head? hrev
      simpa using this
    exact ⟨t2, by rw [h1]⟩

theorem pyStripL_mem {l : List Char} {c : Char} (h : c ∈ pyStripL l) : c ∈ l := by
  unfold pyStripL at h
  rw [List.mem_reverse] at h
  have h2 := dropWhile_mem h
  rw [List.mem_reverse] at h2
  exact dropWhile_mem h2

theorem mem_splitLines_subset :
    ∀ {l : List Char} {line : List Char}, line ∈ splitLines l → ∀ c ∈ line, c ∈ l := by
  intro l
  induction l with
  | nil =>
    intro line hline c hc
    simp [splitLines] at hline
    subst hline
    simp at hc
  | cons a r ih =>
    intro line hline c hc
    unfold splitLines at hline
    by_cases ha : a = '\n'
    · simp [ha] at hline
      rcases hline with h | h
      · subst h; simp at hc
      · exact List.mem_cons_of_mem _ (ih h c hc)
    · simp [ha] at hline
      cases hsr : splitLines r with
      | nil =>
        rw [hsr] at hline; simp at hline; subst hline
        simp at hc
        subst hc
        exact List.mem_cons_self _ _
      | cons h0 t0 =>
        rw [hsr] at hline
        simp at hline
        rcases hline with h | h
        · subst h
          rcases List.mem_cons.mp hc with h1 | h1
          · subst h1; exact List.mem_cons_self _ _
          · have : h0 ∈ splitLines r := by rw [hsr]; exact List.mem_cons_self _ _
            exact List.mem_cons_of_mem _ (ih this c h1)
        · have : line ∈ splitLines r := by rw [hsr]; exact List.mem_cons_of_mem _ h
          exact List.mem_cons_of_mem _ (ih this c hc)

theorem mem_splitLines_no_newline :
    ∀ {l : List Char} {line : List Char}, line ∈ splitLines l → '\n' ∉ line := by
  intro l
  induction l with
  | nil =>
    intro line hline
    simp [splitLines] at hline
    subst hline; simp
  | cons a r ih =>
    intro line hline
    unfold splitLines at hline
    by_cases ha : a = '\n'
    · simp [ha] at hline
      rcases hline with h | h
      · subst h; simp
      · exact ih h
    · simp [ha] at hline
      cases hsr : splitLines r with
      | nil =>
        rw [hsr] at hline; simp at hline; subst hline
        simp [ha]
        intro hcontra
        exact ha hcontra.symm
      | cons h0 t0 =>
        rw [hsr] at hline
        simp at hline
        rcases hline with h | h
        · subst h
          intro hc
          rcases List.mem_cons.mp hc with h1 | h1
          · exact ha h1.symm
          · have : h0 ∈ splitLines r := by rw [hsr]; exact List.mem_cons_self _ _
            exact ih this h1
        · have : line ∈ splitLines r := by rw [hsr]; exact List.mem_cons_of_mem _ h
          exact ih this

theorem action_head_not_marker {line : List Char}
    (hgood : ∀ c ∈ line, isPyWS c = true → c = ' ')
    (hne : pyStripL (pyLstripSet stripSet line) ≠ []) :
    ∃ c t, pyStripL (pyLstripSet stripSet line) = c :: t ∧ c ∉ stripSet := by
  cases hd : pyLstripSet stripSet line with
  | nil =>
    rw [hd] at hne
    exact absurd rfl hne
  | cons c0 t0 =>
    have hd' : line.dropWhile (fun c => decide (c ∈ stripSet)) = c0 :: t0 := hd
    have hc0set : decide (c0 ∈ stripSet) = false :=
      dropWhile_head_false (p := fun c => decide (c ∈ stripSet)) hd'
    have hc0notin : c0 ∉ stripSet := by simpa using hc0set
    have hc0line : c0 ∈ line := by
      have hmem : c0 ∈ line.dropWhile (fun c => decide (c ∈ stripSet)) := by
        rw [hd']; exact List.mem_cons_self _ _
      exact dropWhile_mem hmem
    have hc0ws : isPyWS c0 = false := by
      by_contra hcon
      rw [Bool.not_eq_false] at hcon
      have := hgood c0 hc0line hcon
      subst this
      exact hc0notin (by simp [stripSet])
    have hform : pyStripL (c0 :: t0) = ((c0 :: t0).reverse.dropWhile isPyWS).reverse := by
      unfold pyStripL
      rw [List.dropWhile_cons, hc0ws]
      simp
    rw [hd, hform] at hne
    rw [hform]
    obtain ⟨t2, ht2⟩ := rdrop_head rfl hne
    exact ⟨c0, t2, ht2, hc0notin⟩

theorem take_mem {α : Type} {a : α} {n : Nat} :
    ∀ {l : List α}, a ∈ l.take n → a ∈ l := by
  intro l h
  exact List.take_subset n l h

theorem processLineMain_out {l a : List Char}
    (hgood : ∀ c ∈ l, isPyWS c = true → c = ' ')
    (h : processLineMain l = some a) :
    ∃ c t, a = c :: t ∧ c ∉ stripSet := by
  have hgood' : ∀ c ∈ pyStripL l, isPyWS c = true → c = ' ' :=
    fun c hc => hgood c (pyStripL_mem hc)
  simp only [processLineMain] at h
  split at h
  · split at h
    · rename_i hguard
      injection h with h
      subst h
      have hne : pyStripL (pyLstripSet stripSet (pyStripL l)) ≠ [] := by
        have hcomp := ((Bool.and_eq_true _ _).mp hguard).1
        intro he
        rw [he] at hcomp
        simp at hcomp
      exact action_head_not_marker hgood' hne
    · exact Option.noConfusion h
  · exact Option.noConfusion h

theorem processLineES_out {l a : List Char}
    (hgood : ∀ c ∈ l, isPyWS c = true → c = ' ')
    (h : processLineES l = some a) :
    ∃ c t, a = c :: t ∧ c ∉ stripSet := by
  have hgood' : ∀ c ∈ pyStripL l, isPyWS c = true → c = ' ' :=
    fun c hc => hgood c (pyStripL_mem hc)
  simp only [processLineES] at h
  split at h
  · split at h
    · rename_i hguard
      injection h with h
      subst h
      have hne : pyStripL (pyLstripSet stripSet (pyStripL l)) ≠ [] := by
        have hcomp := ((Bool.and_eq_true _ _).mp hguard).1
        intro he
        rw [he] at hcomp
        simp at hcomp
      exact action_head_not_marker hgood' hne
    · exact Option.noConfusion h
  · exact Option.noConfusion h

/-! ## Claim theorems: action extraction and classifier -/

/-- C1 (counterexample): on the four-line input of the claim, the extraction
operation of `main.py` does NOT return the two-element list
`["Do X immediately", "Do Y now"]`, and neither does the
`enhanced_streamlit.py` variant: `"Do Y now"` (8 characters) fails the
10-character minimum of `main.py`, and the full line `"1. Do Y now"`
(11 characters) fails the 15-character minimum of `enhanced_streamlit.py`. -/
theorem extract_actions_example_claim_false :
    extract_actions_from_response
        "- Do X immediately\n**Header**\nNot a bullet\n1. Do Y now"
      ≠ ["Do X immediately", "Do Y now"]
    ∧ extract_actions_from_response_es
        "- Do X immediately\n**Header**\nNot a bullet\n1. Do Y now"
      ≠ ["Do X immediately", "Do Y now"] :=
  ⟨by decide, by decide⟩

/-- C1 (amended): on the four-line input
`"- Do X immediately\n**Header**\nNot a bullet\n1. Do Y now"`, both variants
of the action-extraction operation return exactly the one-element list
`["Do X immediately"]`: the non-bullet line and the bold-heading line are
dropped, and `"1. Do Y now"` is dropped by the minimum-length threshold. -/
theorem extract_actions_example :
    extract_actions_from_response
        "- Do X immediately\n**Header**\nNot a bullet\n1. Do Y now"
      = ["Do X immediately"]
    ∧ extract_actions_from_response_es
        "- Do X immediately\n**Header**\nNot a bullet\n1. Do Y now"
      = ["Do X immediately"] :=
  ⟨by decide, by decide⟩

/-- C3: every query whose lowercase form contains the word "review" and
matches none of the planner, analytics, or retrieval keyword sets is
classified as "supervisor" (and hence never "crag"): the priority order of
the keyword sets resolves the overlap of "review" between set 4 and set 6
in favour of supervisor. -/
theorem analyze_query_type_review_tiebreak (q : String)
    (hrev : containsSub "review".toList (py_lower q).toList = true)
    (hp : kwHit (py_lower q) plannerWords = false)
    (ha : kwHit (py_lower q) analyticsWords = false)
    (hr : kwHit (py_lower q) ragWords = false) :
    analyze_query_type q = "supervisor" ∧ analyze_query_type q ≠ "crag" := by
  have hsup : kwHit (py_lower q) supervisorWords = true := by
    unfold kwHit
    rw [List.any_eq_true]
    exact ⟨"review", by simp [supervisorWords], hrev⟩
  have hres : analyze_query_type q = "supervisor" := by
    simp [analyze_query_type, hp, ha, hr, hsup]
  exact ⟨hres, by rw [hres]; decide⟩

/-- Witness for C3 at the concrete query "review". -/
theorem analyze_query_type_review_tiebreak_witness :
    (containsSub "review".toList (py_lower "review").toList = true
      ∧ kwHit (py_lower "review") plannerWords = false
      ∧ kwHit (py_lower "review") analyticsWords = false
      ∧ kwHit (py_lower "review") ragWords = false)
    ∧ (analyze_query_type "review" = "supervisor"
      ∧ analyze_query_type "review" ≠ "crag") :=
  ⟨⟨by decide, by decide, by decide, by decide⟩,
    analyze_query_type_review_tiebreak "review"
      (by decide) (by decide) (by decide) (by decide)⟩

/-- C10 (counterexample): the part of the claim asserting that no returned
action ever begins with a character of the strip set is false: on the line
`"- \t.restock everything now"` the tab stops `lstrip`, the final whitespace
trim then re-exposes the leading `'.'`, and both variants return an action
whose first character `'.'` belongs to the strip set. -/
theorem extract_actions_marker_reexposed :
    extract_actions_from_response "- \t.restock everything now"
        = [".restock everything now"]
    ∧ extract_actions_from_response_es "- \t.restock everything now"
        = [".restock everything now"]
    ∧ '.' ∈ stripSet :=
  ⟨by decide, by decide, by decide⟩

/-- C10 (amended): marker stripping removes every leading character drawn
from the set `{'-', '•', '1'..'5', '.', ' '}`, not just one marker token;
consequently, whenever the response contains no whitespace other than
plain spaces and newlines, no returned action of either variant is empty or
begins with a character of that set; and the line
`"- 5 products need restocking immediately"` yields the action
`"products need restocking immediately"`, the leading digit `5` of the
action text itself being lost. -/
theorem extract_actions_strip_behavior (resp : String)
    (hws : ∀ c ∈ resp.toList, isPyWS c = true → c = ' ' ∨ c = '\n') :
    (∀ a ∈ extract_actions_from_response resp,
        ∃ c t, a.toList = c :: t ∧ c ∉ stripSet)
    ∧ (∀ a ∈ extract_actions_from_response_es resp,
        ∃ c t, a.toList = c :: t ∧ c ∉ stripSet)
    ∧ extract_actions_from_response "- 5 products need restocking immediately"
        = ["products need restocking immediately"]
    ∧ extract_actions_from_response_es "- 5 products need restocking immediately"
        = ["products need restocking immediately"] := by
  refine ⟨?_, ?_, by decide, by decide⟩
  · intro a ha
    have ha' := take_mem ha
    obtain ⟨la, hla, rfl⟩ := List.mem_map.mp ha'
    obtain ⟨line, hlineMem, hproc⟩ := List.mem_filterMap.mp hla
    have hgoodline : ∀ c ∈ line, isPyWS c = true → c = ' ' := by
      intro c hc hw
      have hcresp := mem_splitLines_subset hlineMem c hc
      rcases hws c hcresp hw with h | h
      · exact h
      · exact absurd (h ▸ hc) (mem_splitLines_no_newline hlineMem)
    rw [toList_mk]
    exact processLineMain_out hgoodline hproc
  · intro a ha
    have ha' := take_mem ha
    obtain ⟨la, hla, rfl⟩ := List.mem_map.mp ha'
    obtain ⟨line, hlineMem, hproc⟩ := List.mem_filterMap.mp hla
    have hgoodline : ∀ c ∈ line, isPyWS c = true → c = ' ' := by
      intro c hc hw
      have hcresp := mem_splitLines_subset hlineMem c hc
      rcases hws c hcresp hw with h | h
      · exact h
      · exact absurd (h ▸ hc) (mem_splitLines_no_newline hlineMem)
    rw [toList_mk]
    exact processLineES_out hgoodline hproc

/-- Witness for C10 at a concrete response containing only plain spaces. -/
theorem extract_actions_strip_behavior_witness :
    (∀ c ∈ ("- restock the main warehouse today").toList,
        isPyWS c = true → c = ' ' ∨ c = '\n')
    ∧ (∀ a ∈ extract_actions_from_response "- restock the main warehouse today",
        ∃ c t, a.toList = c :: t ∧ c ∉ stripSet) :=
  ⟨by decide,
    (extract_actions_strip_behavior "- restock the main warehouse today" (by decide)).1⟩

/-! ## Claim theorems: safe coercions and Metrics Aggregator -/

/-- C9: the safe numeric coercion helpers are total functions (their Lean
types are `PyValue → Rat` and `PyValue → Int`, with no failure channel):
`safe_float` maps `None` and `"abc"` to `0.0`, `safe_int` maps them to `0`,
the defaulted dictionary lookup used at the call sites yields `0` for every
missing key, and genuinely numeric inputs pass through (`"12.5"` parses,
`int(12.5)` truncates, `"7"` parses). -/
theorem safe_coercion_total :
    safe_float .pynone = 0
    ∧ safe_float (.pystr "abc") = 0
    ∧ safe_int .pynone = 0
    ∧ safe_int (.pystr "abc") = 0
    ∧ (∀ k, pyDictGetInt [] k = .pyint 0)
    ∧ safe_float (.pystr "12.5") = 25 / 2
    ∧ safe_int (.pyfloat (25 / 2)) = 12
    ∧ safe_int (.pystr "7") = 7
    ∧ safe_int (.pystr "12.5") = 0 := by
  refine ⟨rfl, by decide, rfl, by decide, fun k => rfl, ?_, ?_, by decide, by decide⟩
  · have h : safe_float (.pystr "12.5") = mkRat 25 2 := by decide
    rw [h]
    norm_num [Rat.mkRat_eq_div]
  · show pyTruncate (25 / 2) = 12
    norm_num [pyTruncate]

/-- C7: for every storage state and every threshold T, the low-stock query
returns only products with stock strictly below T, and the returned list is
sorted ascending by stock quantity (on a storage error the result is empty,
for which both properties hold vacuously). -/
theorem get_low_stock_products_spec (db : Storage) (T : Int) :
    (∀ p ∈ get_low_stock_products db T, p.stock_quantity < T)
    ∧ List.Sorted (ascBy (fun j : JoinedProduct => j.stock_quantity))
        (get_low_stock_products db T) := by
  cases db with
  | error e =>
    constructor
    · intro p hp
      simp [get_low_stock_products] at hp
    · simp [get_low_stock_products]
  | ok d =>
    constructor
    · intro p hp
      simp only [get_low_stock_products] at hp
      rw [List.mem_insertionSort] at hp
      have := (List.mem_filter.mp hp).2
      simpa using this
    · simp only [get_low_stock_products]
      exact List.sorted_insertionSort _ _

/-- Bounds and bucketing of the health score as a function of the five
boolean indicators: case analysis over all 32 indicator combinations. -/
theorem health_bucket (hi : HealthIndicators) :
    0 ≤ pyRound1 (healthScoreRaw hi)
    ∧ pyRound1 (healthScoreRaw hi) ≤ 100
    ∧ pyRound1 (healthScoreRaw hi) = (indicatorsTrueCount hi : Rat) / 5 * 100
    ∧ (healthStatusOf (healthScoreRaw hi) = "excellent"
        ↔ 80 ≤ pyRound1 (healthScoreRaw hi))
    ∧ (healthStatusOf (healthScoreRaw hi) = "good"
        ↔ 60 ≤ pyRound1 (healthScoreRaw hi) ∧ pyRound1 (healthScoreRaw hi) < 80)
    ∧ (healthStatusOf (healthScoreRaw hi) = "needs_attention"
        ↔ pyRound1 (healthScoreRaw hi) < 60) := by
  obtain ⟨b1, b2, b3, b4, b5⟩ := hi
  cases b1 <;> cases b2 <;> cases b3 <;> cases b4 <;> cases b5 <;>
    norm_num [healthScoreRaw, healthStatusOf, pyRound1, indicatorsTrueCount] <;>
    decide

/-- C8: for every database state, the stored health score equals the
fraction of the 5 boolean health indicators that are true, times 100, lies
in [0, 100], and the health status is bucketed consistently with it:
"excellent" iff score ≥ 80, "good" iff 60 ≤ score < 80, "needs_attention"
iff score < 60. -/
theorem get_system_health_spec (d : DBState) :
    0 ≤ (get_system_health (Except.ok d)).system_metrics.health_score
    ∧ (get_system_health (Except.ok d)).system_metrics.health_score ≤ 100
    ∧ (get_system_health (Except.ok d)).health_indicators = some (systemIndicators d)
    ∧ (get_system_health (Except.ok d)).system_metrics.health_score
        = (indicatorsTrueCount (systemIndicators d) : Rat) / 5 * 100
    ∧ ((get_system_health (Except.ok d)).system_metrics.health_status = "excellent"
        ↔ 80 ≤ (get_system_health (Except.ok d)).system_metrics.health_score)
    ∧ ((get_system_health (Except.ok d)).system_metrics.health_status = "good"
        ↔ 60 ≤ (get_system_health (Except.ok d)).system_metrics.health_score
          ∧ (get_system_health (Except.ok d)).system_metrics.health_score < 80)
    ∧ ((get_system_health (Except.ok d)).system_metrics.health_status = "needs_attention"
        ↔ (get_system_health (Except.ok d)).system_metrics.health_score < 60) := by
  have hsc : (get_system_health (Except.ok d)).system_metrics.health_score
      = pyRound1 (healthScoreRaw (systemIndicators d)) := rfl
  have hst : (get_system_health (Except.ok d)).system_metrics.health_status
      = healthStatusOf (healthScoreRaw (systemIndicators d)) := rfl
  have hhi : (get_system_health (Except.ok d)).health_indicators
      = some (systemIndicators d) := rfl
  obtain ⟨h1, h2, h3, h4, h5, h6⟩ := health_bucket (systemIndicators d)
  rw [hsc, hst]
  exact ⟨h1, h2, hhi, h3, h4, h5, h6⟩

/-- C5 (counterexample): on a storage error, `search_products` and
`get_low_stock_products` return the bare empty list, which carries no error
annotation at all — it is literally identical to the result on a healthy
empty database, so no part of the result describes the failure. -/
theorem search_products_error_unannotated :
    search_products (Except.error "disk I/O error") "" none = []
    ∧ get_low_stock_products (Except.error "disk I/O error") 10 = []
    ∧ search_products (Except.error "disk I/O error") "" none
        = search_products (Except.ok ⟨[], [], [], [], "ok"⟩) "" none
    ∧ get_low_stock_products (Except.error "disk I/O error") 10
        = get_low_stock_products (Except.ok ⟨[], [], [], [], "ok"⟩) 10 :=
  ⟨rfl, rfl, by decide, by decide⟩

/-- C5 (amended): every one of the six aggregator operations catches a
storage error and returns a well-formed empty/default result instead of
propagating; the four dictionary-returning operations (salesTrends,
userBehavior, categoryInsights, systemHealth) annotate that default with
the error string, while the two list-returning operations (searchProducts,
lowStockProducts) return a plain empty list with no annotation. -/
theorem aggregator_error_absorption (e : String) (q : String)
    (cf : Option String) (T : Int) :
    search_products (Except.error e) q cf = []
    ∧ get_low_stock_products (Except.error e) T = []
    ∧ get_sales_trends (Except.error e)
        = { category_statistics := [], total_statistics := none,
            price_statistics := none, total_products := 0, low_stock_alerts := 0,
            total_inventory_value := none, health_score := "error", error := some e }
    ∧ (get_sales_trends (Except.error e)).error = some e
    ∧ analyze_user_behavior (Except.error e)
        = ⟨{ role_distribution := [], activity_summary := none,
             recent_registrations := [], total_active_users := 0,
             total_inactive_users := 0, admin_count := 0, manager_count := 0,
             user_count := 0, error := some e }⟩
    ∧ (analyze_user_behavior (Except.error e)).user_analytics.error = some e
    ∧ get_category_insights (Except.error e)
        = { category_insights := [], low_stock_categories := [],
            total_categories := 0, categories_with_products := 0,
            empty_categories := 0, error := some e }
    ∧ (get_category_insights (Except.error e)).error = some e
    ∧ get_system_health (Except.error e)
        = ⟨{ categories := 0, products := 0, active_users := 0, roles := 0,
             low_stock_alerts := 0, database_health := "unknown",
             table_sizes := none, health_score := 0, health_status := "error",
             error := some e }, none⟩
    ∧ (get_system_health (Except.error e)).system_metrics.error = some e :=
  ⟨rfl, rfl, rfl, rfl, rfl, rfl, rfl, rfl, rfl, rfl⟩

/-! ## Claim theorems: pipeline error handling -/

/-- C2 (counterexample): with an unavailable completion client and no
assembly exception, the supervisor returns the fixed unavailable message
as the response text while `needs_human_review` is `false` — refuting the
claimed "if and only if". -/
theorem supervisor_agent_unavailable_no_review :
    (supervisor_agent ⟨"llama3.1:latest", false, true⟩
        (Except.ok ⟨[], [], [], [], "ok"⟩) (.genok "hello") "q" "admin" none).1.response
      = enhancedUnavailableMsg
    ∧ (supervisor_agent ⟨"llama3.1:latest", false, true⟩
        (Except.ok ⟨[], [], [], [], "ok"⟩) (.genok "hello") "q" "admin" none).1.needs_human_review
      = false :=
  ⟨rfl, rfl⟩

/-- C2 (amended): `needs_human_review` of the returned response is true if
and only if an unhandled exception occurred during assembly; mere
completion-client unavailability leaves it false — the fixed unavailable
message is then returned as the response text with
`needs_human_review = false`. -/
theorem supervisor_agent_review_iff_exception (st : AgentState) (db : Storage)
    (gen : GenOutcome) (q r : String) (exc : Option String) :
    ((supervisor_agent st db gen q r exc).1.needs_human_review = true ↔ exc.isSome)
    ∧ (supervisor_agent ⟨st.model, false, st.hasClient⟩ db gen q r none).1.response
        = enhancedUnavailableMsg
    ∧ (supervisor_agent ⟨st.model, false, st.hasClient⟩ db gen q r none).1.needs_human_review
        = false := by
  refine ⟨?_, rfl, rfl⟩
  cases exc <;> simp [supervisor_agent]

/-- C6: if initialization found no available models (or the client
constructor failed), the agent reports itself unavailable, and every
subsequent completion call — in both the enhanced agent and the retrying
base agent — returns the fixed unavailable message while making zero
network calls. -/
theorem no_models_short_circuit (probe gen : GenOutcome) (clientOk : Bool)
    (genSeq : Nat → GenOutcome) (prompt : String) (retries : Nat)
    (m : String) (hc : Bool) :
    test_connection [] probe = false
    ∧ (initEnhancedAgent clientOk [] probe).available = false
    ∧ safe_generate (initEnhancedAgent clientOk [] probe) gen prompt
        = (enhancedUnavailableMsg, 0)
    ∧ safe_generate ⟨m, false, hc⟩ gen prompt = (enhancedUnavailableMsg, 0)
    ∧ ai_safe_generate ⟨m, false, hc⟩ genSeq prompt retries = (aiUnavailableMsg, 0) := by
  refine ⟨rfl, ?_, ?_, rfl, rfl⟩
  · cases clientOk <;> rfl
  · cases clientOk <;> rfl

/-- C4: evaluating the endpoint at an empty inbound query: the inner
`HTTPException(400, "Query is required")` is caught by the endpoint's bare
`except Exception` and re-raised as a 500 with detail
`"AI processing error: 400: Query is required"`; no model call is made
(zero completion-service calls), but the outward signal is a server error
(500), not the client error (400) the claim requires. -/
theorem enhanced_ai_query_empty_query (st : AgentState) (db : Storage)
    (gen : GenOutcome) (style role : String) (exc : Option String) :
    enhanced_ai_query st db gen "" style role exc
      = (Except.error ⟨500, "AI processing error: 400: Query is required"⟩, 0) := rfl
